import Mathlib

/-!
Shallow embedding of the flight-control core of the Gazebo Tello plugin
(source file src/tello_gazebo/src/tello_plugin.cpp).

Floating-point doubles are modelled as real numbers.  The per-channel PID
regulator lives in pid.hpp, which the repository includes but does not ship;
its Controller is therefore modelled from the specification (sections 3 and
4.1), as documented on each definition.  Vectors, quaternions, the inertia
interface and the Euler-angle convention of the external physics and math
libraries are likewise modelled from the specification of the external
interfaces (section 6).
-/

namespace TelloGazebo

noncomputable section

/-- Body-frame 3-vector of the physics interface (spec section 6: velocities,
moment of inertia, force and torque each carry three real components). -/
structure Vec3 where
  x : ℝ
  y : ℝ
  z : ℝ

/-- Orientation quaternion of the physics interface; the source mutates its
x and y components through pose.Rot().X(0) and pose.Rot().Y(0). -/
structure Quat where
  w : ℝ
  x : ℝ
  y : ℝ
  z : ℝ

/-- Per-axis maximum velocities, tello_plugin.cpp lines 20-22. -/
def MAX_XY_V : ℝ := 8

/-- Maximum vertical velocity, tello_plugin.cpp line 21. -/
def MAX_Z_V : ℝ := 4

/-- Maximum yaw angular velocity, tello_plugin.cpp line 22. -/
def MAX_ANG_V : ℝ := Real.pi

/-- Maximum horizontal acceleration, tello_plugin.cpp line 24. -/
def MAX_XY_A : ℝ := 8

/-- Maximum vertical acceleration, tello_plugin.cpp line 25. -/
def MAX_Z_A : ℝ := 4

/-- Maximum yaw angular acceleration, tello_plugin.cpp line 26. -/
def MAX_ANG_A : ℝ := Real.pi

/-- Saturation of tello_plugin.cpp lines 28-31:
return v > max ? max : (v < -max ? -max : v). -/
def clamp (v max : ℝ) : ℝ :=
  if v > max then max else if v < -max then -max else v

/-- Modelled from the spec: the pid Controller of pid.hpp, which the
repository includes but does not ship.  Spec section 3: gains kp, ki, kd and
a flag indicating whether the controlled quantity is angular, all fixed at
construction; a mutable setpoint; an accumulated integral error; and a
previous error used for the derivative term.  The source constructs each of
the four channels as pid Controller {false, 2, 0, 0} (tello_plugin.cpp
lines 65-68), with the mutable state zero-initialized. -/
structure Controller where
  angle : Bool
  kp : ℝ
  ki : ℝ
  kd : ℝ
  target : ℝ := 0
  prev_error : ℝ := 0
  integral : ℝ := 0

/-- Modelled from the spec: wrapping of an angle into the interval
(-pi, pi] (shortest-angle difference), applied when a channel is flagged
angular (spec section 4.1). -/
def norm_angle (a : ℝ) : ℝ :=
  a - 2 * Real.pi * ((Int.ceil ((a - Real.pi) / (2 * Real.pi)) : ℤ) : ℝ)

/-- Modelled from the spec: the instantaneous error used by an update of a
channel, setpoint minus measured value, wrapped into (-pi, pi] when the
channel is flagged angular (spec section 4.1). -/
def Controller.effectiveError (c : Controller) (state : ℝ) : ℝ :=
  if c.angle then norm_angle (c.target - state) else c.target - state

/-- Modelled from the spec: set_target stores a new setpoint, overwriting
any previous value, with no other effect on controller state (spec section
4.1). -/
def Controller.set_target (c : Controller) (t : ℝ) : Controller :=
  { c with target := t }

/-- Modelled from the spec: calc(state, dt, bias) of pid.hpp, the update of
spec section 4.1: accumulator += error * dt; the derivative is the rate of
change of the error across the step and is zero when dt = 0; the output is
kp*error + ki*accumulator + kd*derivative.  The bias argument, always 0 at
the call sites of the source, is added to the output.  Returns the updated
controller state together with the acceleration demand. -/
def Controller.calc (c : Controller) (state dt bias : ℝ) : Controller × ℝ :=
  let error := c.effectiveError state
  let integral := c.integral + error * dt
  let derivative := if dt = 0 then 0 else (error - c.prev_error) / dt
  ({ c with integral := integral, prev_error := error },
    c.kp * error + c.ki * integral + c.kd * derivative + bias)

/-- Mutable plugin state: the sim time of the last update (tello_plugin.cpp
line 62; the external gazebo Time type default-initializes to zero) and the
four channel controllers (lines 65-68). -/
structure TelloPlugin where
  sim_time : ℝ
  x_controller : Controller
  y_controller : Controller
  z_controller : Controller
  yaw_controller : Controller

/-- Plugin state as constructed at load time: every channel is
pid Controller {false, 2, 0, 0} and no sim time has been stored. -/
def initPlugin : TelloPlugin where
  sim_time := 0
  x_controller := { angle := false, kp := 2, ki := 0, kd := 0 }
  y_controller := { angle := false, kp := 2, ki := 0, kd := 0 }
  z_controller := { angle := false, kp := 2, ki := 0, kd := 0 }
  yaw_controller := { angle := false, kp := 2, ki := 0, kd := 0 }

/-- Incoming velocity command (geometry_msgs Twist): the components the
plugin reads. -/
structure Twist where
  linear_x : ℝ
  linear_y : ℝ
  linear_z : ℝ
  angular_z : ℝ

/-- Subscription handler of tello_plugin.cpp lines 217-227: each channel
setpoint becomes the matching command component scaled by the per-axis
maximum velocity. -/
def cmd_vel_callback (p : TelloPlugin) (msg : Twist) : TelloPlugin :=
  { p with
    x_controller := p.x_controller.set_target (msg.linear_x * MAX_XY_V)
    y_controller := p.y_controller.set_target (msg.linear_y * MAX_XY_V)
    z_controller := p.z_controller.set_target (msg.linear_z * MAX_Z_V)
    yaw_controller := p.yaw_controller.set_target (msg.angular_z * MAX_ANG_V) }

/-- Result of one OnUpdate tick: the new plugin state together with the
values the tick computed: the elapsed time dt it used, the clamped
acceleration demands lin_ubar and ang_ubar, the force and torque handed to
the physics engine, and the overwritten orientation. -/
structure UpdateResult where
  plugin : TelloPlugin
  dt : ℝ
  lin_ubar : Vec3
  ang_ubar : Vec3
  force : Vec3
  torque : Vec3
  pose_rot : Quat

/-- Per-tick update of tello_plugin.cpp lines 145-207: dt = simTime minus
the stored sim time; each controller produces an acceleration demand from
the matching measured velocity component (only the z angular component is
controlled, the x and y angular demands stay at the zero of the
default-constructed vector); the demands are clamped per axis; force is the
clamped linear demand times the body mass and torque is the clamped angular
demand times the moment of inertia (spec section 6 supplies the inertia as
three principal components, multiplied component-wise); the x and y
components of the orientation quaternion are overwritten with zero. -/
def OnUpdate (p : TelloPlugin) (simTime : ℝ) (linear_velocity angular_velocity : Vec3)
    (mass : ℝ) (moi : Vec3) (pose_rot : Quat) : UpdateResult :=
  let dt := simTime - p.sim_time
  let xr := p.x_controller.calc linear_velocity.x dt 0
  let yr := p.y_controller.calc linear_velocity.y dt 0
  let zr := p.z_controller.calc linear_velocity.z dt 0
  let yawr := p.yaw_controller.calc angular_velocity.z dt 0
  let lin_ubar := Vec3.mk (clamp xr.2 MAX_XY_A) (clamp yr.2 MAX_XY_A) (clamp zr.2 MAX_Z_A)
  let ang_ubar := Vec3.mk 0 0 (clamp yawr.2 MAX_ANG_A)
  let force := Vec3.mk (lin_ubar.x * mass) (lin_ubar.y * mass) (lin_ubar.z * mass)
  let torque := Vec3.mk (ang_ubar.x * moi.x) (ang_ubar.y * moi.y) (ang_ubar.z * moi.z)
  { plugin :=
      { sim_time := simTime
        x_controller := xr.1
        y_controller := yr.1
        z_controller := zr.1
        yaw_controller := yawr.1 }
    dt := dt
    lin_ubar := lin_ubar
    ang_ubar := ang_ubar
    force := force
    torque := torque
    pose_rot := { pose_rot with x := 0, y := 0 } }

/-- Request of the tello_action service: the action string. -/
structure TelloActionRequest where
  cmd : String

/-- Response of the tello_action service: the return code field. -/
structure TelloActionResponse where
  rc : ℕ

/-- Service handler of tello_plugin.cpp lines 209-215: the body holds only a
TODO comment, so the handler leaves the plugin state and the response
untouched. -/
def command_callback (p : TelloPlugin) (_request : TelloActionRequest)
    (response : TelloActionResponse) : TelloPlugin × TelloActionResponse :=
  (p, response)

/-- Modelled from the spec: atan2 of the external math library, the angle of
the point (x, y), valued in (-pi, pi]. -/
def atan2 (y x : ℝ) : ℝ :=
  if 0 < x then Real.arctan (y / x)
  else if x < 0 then
    (if 0 ≤ y then Real.arctan (y / x) + Real.pi else Real.arctan (y / x) - Real.pi)
  else
    (if 0 < y then Real.pi / 2 else if y < 0 then -(Real.pi / 2) else 0)

/-- Modelled from the spec: roll (rotation about body x) extracted from an
orientation quaternion with the convention of the external math library. -/
def Quat.roll (q : Quat) : ℝ :=
  atan2 (2 * (q.y * q.z + q.w * q.x)) (q.w ^ 2 - q.x ^ 2 - q.y ^ 2 + q.z ^ 2)

/-- Modelled from the spec: pitch (rotation about body y) extracted from a
unit orientation quaternion with the convention of the external math
library. -/
def Quat.pitch (q : Quat) : ℝ :=
  Real.arcsin (2 * (q.w * q.y - q.x * q.z))

/-- Modelled from the spec: yaw (rotation about body z) extracted from an
orientation quaternion with the convention of the external math library. -/
def Quat.yaw (q : Quat) : ℝ :=
  atan2 (2 * (q.x * q.y + q.w * q.z)) (q.w ^ 2 + q.x ^ 2 - q.y ^ 2 - q.z ^ 2)

/-- Helper: clamp stays within the symmetric interval when the bound is
nonnegative. -/
theorem clamp_mem (v m : ℝ) (h : 0 ≤ m) : -m ≤ clamp v m ∧ clamp v m ≤ m := by
  unfold clamp
  split_ifs <;> constructor <;> linarith

/-- Helper: norm_angle agrees with any representative already shifted into
(-pi, pi]. -/
theorem norm_angle_eq (a : ℝ) (k : ℤ) (h1 : -Real.pi < a - 2 * Real.pi * (k : ℝ))
    (h2 : a - 2 * Real.pi * (k : ℝ) ≤ Real.pi) :
    norm_angle a = a - 2 * Real.pi * (k : ℝ) := by
  have hpi := Real.pi_pos
  have hk : (Int.ceil ((a - Real.pi) / (2 * Real.pi)) : ℤ) = k := by
    rw [Int.ceil_eq_iff]
    constructor
    · rw [lt_div_iff₀ (by linarith : (0:ℝ) < 2 * Real.pi)]
      nlinarith
    · rw [div_le_iff₀ (by linarith : (0:ℝ) < 2 * Real.pi)]
      nlinarith
  unfold norm_angle
  rw [hk]

/-- Helper: atan2 of zero over a nonnegative abscissa is zero. -/
theorem atan2_zero_nonneg (x : ℝ) (h : 0 ≤ x) : atan2 0 x = 0 := by
  unfold atan2
  split_ifs <;> first
    | linarith
    | rfl
    | rw [zero_div, Real.arctan_zero]

/-- C8: the clamp of the source is idempotent and odd-symmetric for every
real input and every positive bound. -/
theorem claim_C8 : ∀ v m : ℝ, 0 < m →
    clamp (clamp v m) m = clamp v m ∧ clamp v m = -clamp (-v) m := by
  intro v m hm
  unfold clamp
  constructor
  · split_ifs <;> linarith
  · split_ifs <;> linarith

/-- C8 witness: the idempotence and odd symmetry instantiated at v = 5 and
m = 1. -/
theorem claim_C8_witness :
    clamp (clamp 5 1) 1 = clamp 5 1 ∧ clamp 5 1 = -clamp (-5) 1 :=
  claim_C8 5 1 (by norm_num)

/-- C4: every incoming velocity command stores, per channel, exactly the
command component scaled by the per-axis maximum velocity (8 for x and y, 4
for z, pi for yaw); in particular the command (1, 0, 0, 0) sets the x
setpoint to exactly 8. -/
theorem claim_C4 : ∀ (p : TelloPlugin) (msg : Twist),
    ((cmd_vel_callback p msg).x_controller.target = msg.linear_x * 8 ∧
     (cmd_vel_callback p msg).y_controller.target = msg.linear_y * 8 ∧
     (cmd_vel_callback p msg).z_controller.target = msg.linear_z * 4 ∧
     (cmd_vel_callback p msg).yaw_controller.target = msg.angular_z * Real.pi) ∧
    (cmd_vel_callback p (Twist.mk 1 0 0 0)).x_controller.target = 8 := by
  intro p msg
  refine ⟨⟨rfl, rfl, rfl, rfl⟩, ?_⟩
  show (1 : ℝ) * MAX_XY_V = 8
  norm_num [MAX_XY_V]

/-- C9: a velocity command is last-write-wins: delivering commands c1 then
c2 before a tick leaves exactly the state produced by c2 alone, so the next
tick computes from the c2 values only. -/
theorem claim_C9 : ∀ (p : TelloPlugin) (c1 c2 : Twist),
    cmd_vel_callback (cmd_vel_callback p c1) c2 = cmd_vel_callback p c2 ∧
    ∀ (t : ℝ) (lv av : Vec3) (m : ℝ) (moi : Vec3) (q : Quat),
      OnUpdate (cmd_vel_callback (cmd_vel_callback p c1) c2) t lv av m moi q
        = OnUpdate (cmd_vel_callback p c2) t lv av m moi q :=
  fun _ _ _ => ⟨rfl, fun _ _ _ _ _ _ => rfl⟩

/-- C10: the tello_action service handler is a no-op stub: it leaves the
plugin state unchanged, writes nothing into the response, and therefore
cannot affect any per-tick computation. -/
theorem claim_C10 : ∀ (p : TelloPlugin) (req : TelloActionRequest)
    (resp : TelloActionResponse),
    command_callback p req resp = (p, resp) ∧
    ∀ (t : ℝ) (lv av : Vec3) (m : ℝ) (moi : Vec3) (q : Quat),
      OnUpdate (command_callback p req resp).1 t lv av m moi q
        = OnUpdate p t lv av m moi q :=
  fun _ _ _ => ⟨rfl, fun _ _ _ _ _ _ => rfl⟩

/-- C1 counterexample: the yaw channel of the plugin is constructed with the
angular flag false, so for setpoint 0 and measured value 2*pi - 0.01 the
error used by the update is not wrapped and its magnitude exceeds 0.01,
refuting the claimed bound. -/
theorem claim_C1_counterexample :
    ¬ (|Controller.effectiveError initPlugin.yaw_controller (2 * Real.pi - 0.01)| ≤ 0.01) := by
  show ¬ (|(0 : ℝ) - (2 * Real.pi - 0.01)| ≤ 0.01)
  intro hle
  rw [abs_le] at hle
  obtain ⟨hl, _⟩ := hle
  have h3 := Real.pi_gt_three
  linarith

/-- C1 amended: the yaw-rate channel is flagged non-angular, so its error is
the plain difference setpoint minus measured value (magnitude 2*pi - 0.01 in
the claimed scenario); only a channel flagged angular wraps its error into
(-pi, pi], and for such a channel with setpoint 0 and measured value
2*pi - 0.01 the wrapped error magnitude is at most 0.01. -/
theorem claim_C1 :
    initPlugin.yaw_controller.angle = false ∧
    Controller.effectiveError initPlugin.yaw_controller (2 * Real.pi - 0.01)
      = -(2 * Real.pi - 0.01) ∧
    ∀ c : Controller, c.angle = true → c.target = 0 →
      |c.effectiveError (2 * Real.pi - 0.01)| ≤ 0.01 := by
  refine ⟨rfl, ?_, ?_⟩
  · show (0 : ℝ) - (2 * Real.pi - 0.01) = -(2 * Real.pi - 0.01)
    ring
  · intro c hang htgt
    have he : c.effectiveError (2 * Real.pi - 0.01)
        = norm_angle (c.target - (2 * Real.pi - 0.01)) := by
      unfold Controller.effectiveError
      rw [hang]
      simp
    rw [he, htgt]
    have hn : norm_angle (0 - (2 * Real.pi - 0.01))
        = (0 - (2 * Real.pi - 0.01)) - 2 * Real.pi * ((-1 : ℤ) : ℝ) := by
      apply norm_angle_eq
      · push_cast
        have h3 := Real.pi_gt_three
        linarith
      · push_cast
        have h3 := Real.pi_gt_three
        linarith
    rw [hn]
    push_cast
    rw [abs_le]
    constructor <;> linarith

/-- C1 witness: a channel flagged angular with setpoint 0 sees a wrapped
error of magnitude at most 0.01 at measured value 2*pi - 0.01. -/
theorem claim_C1_witness :
    |Controller.effectiveError (Controller.mk true 2 0 0 0 0 0) (2 * Real.pi - 0.01)| ≤ 0.01 :=
  claim_C1.2.2 (Controller.mk true 2 0 0 0 0 0) rfl rfl

/-- C2 counterexample: on the first tick after initialization the step does
not use dt = 0: the stored sim time starts at zero, so a first tick at sim
time 5 uses dt = 5. -/
theorem claim_C2_counterexample :
    (OnUpdate initPlugin 5 (Vec3.mk 0 0 0) (Vec3.mk 0 0 0) 1 (Vec3.mk 1 1 1)
      (Quat.mk 1 0 0 0)).dt = 5 ∧
    (OnUpdate initPlugin 5 (Vec3.mk 0 0 0) (Vec3.mk 0 0 0) 1 (Vec3.mk 1 1 1)
      (Quat.mk 1 0 0 0)).dt ≠ 0 := by
  constructor
  · show (5 : ℝ) - 0 = 5
    norm_num
  · show (5 : ℝ) - 0 ≠ 0
    norm_num

/-- C2 amended: the stored last sim time initializes to zero, so the first
tick uses dt equal to the current sim time (zero only if the first tick
happens at sim time zero); every tick uses dt = current sim time minus the
stored sim time and stores the current sim time, and dt is nonnegative
whenever sim time has not decreased since the last processed tick. -/
theorem claim_C2 :
    (∀ (t : ℝ) (lv av : Vec3) (m : ℝ) (moi : Vec3) (q : Quat),
      (OnUpdate initPlugin t lv av m moi q).dt = t) ∧
    (∀ (p : TelloPlugin) (t : ℝ) (lv av : Vec3) (m : ℝ) (moi : Vec3) (q : Quat),
      (OnUpdate p t lv av m moi q).dt = t - p.sim_time ∧
      (OnUpdate p t lv av m moi q).plugin.sim_time = t) ∧
    (∀ (p : TelloPlugin) (t : ℝ) (lv av : Vec3) (m : ℝ) (moi : Vec3) (q : Quat),
      p.sim_time ≤ t → 0 ≤ (OnUpdate p t lv av m moi q).dt) := by
  refine ⟨?_, ?_, ?_⟩
  · intro t lv av m moi q
    show t - (0 : ℝ) = t
    exact sub_zero t
  · intro p t lv av m moi q
    exact ⟨rfl, rfl⟩
  · intro p t lv av m moi q h
    show (0 : ℝ) ≤ t - p.sim_time
    linarith

/-- C2 witness: a tick at sim time 1 from the initial state has nonnegative
dt. -/
theorem claim_C2_witness :
    0 ≤ (OnUpdate initPlugin 1 (Vec3.mk 0 0 0) (Vec3.mk 0 0 0) 1 (Vec3.mk 1 1 1)
      (Quat.mk 1 0 0 0)).dt :=
  claim_C2.2.2 initPlugin 1 (Vec3.mk 0 0 0) (Vec3.mk 0 0 0) 1 (Vec3.mk 1 1 1)
    (Quat.mk 1 0 0 0) (by norm_num [initPlugin])

/-- C3: on every tick the clamped x and y linear demands lie in [-8, 8], the
clamped z linear demand lies in [-4, 4] and the clamped yaw angular demand
lies in [-pi, pi]; and for every v and every positive bound m, a value
beyond the bound is set exactly to the bound with its sign preserved while a
value within the bound is returned unchanged. -/
theorem claim_C3 :
    (∀ (p : TelloPlugin) (t : ℝ) (lv av : Vec3) (m : ℝ) (moi : Vec3) (q : Quat),
      (-8 ≤ (OnUpdate p t lv av m moi q).lin_ubar.x ∧
        (OnUpdate p t lv av m moi q).lin_ubar.x ≤ 8) ∧
      (-8 ≤ (OnUpdate p t lv av m moi q).lin_ubar.y ∧
        (OnUpdate p t lv av m moi q).lin_ubar.y ≤ 8) ∧
      (-4 ≤ (OnUpdate p t lv av m moi q).lin_ubar.z ∧
        (OnUpdate p t lv av m moi q).lin_ubar.z ≤ 4) ∧
      (-Real.pi ≤ (OnUpdate p t lv av m moi q).ang_ubar.z ∧
        (OnUpdate p t lv av m moi q).ang_ubar.z ≤ Real.pi)) ∧
    (∀ v m : ℝ, 0 < m →
      (v > m → clamp v m = m) ∧ (v < -m → clamp v m = -m) ∧
      (-m ≤ v → v ≤ m → clamp v m = v)) := by
  constructor
  · intro p t lv av m moi q
    exact ⟨clamp_mem _ 8 (by norm_num), clamp_mem _ 8 (by norm_num),
      clamp_mem _ 4 (by norm_num), clamp_mem _ Real.pi Real.pi_pos.le⟩
  · intro v m hm
    refine ⟨fun h => ?_, fun h => ?_, fun h1 h2 => ?_⟩
    · unfold clamp
      rw [if_pos h]
    · unfold clamp
      rw [if_neg (not_lt.mpr (by linarith)), if_pos h]
    · unfold clamp
      rw [if_neg (not_lt.mpr (by linarith)), if_neg (not_lt.mpr (by linarith))]

/-- C3 witness: a demand of 10 on an axis bounded by 8 is clamped exactly to
the bound. -/
theorem claim_C3_witness : clamp 10 8 = 8 :=
  (claim_C3.2 10 8 (by norm_num)).1 (by norm_num)

/-- C5: on every tick, for any positive mass, the force equals the clamped
linear acceleration demand scaled by the mass, and the torque equals the
clamped angular acceleration demand multiplied component-wise by the moment
of inertia components. -/
theorem claim_C5 :
    ∀ (p : TelloPlugin) (t : ℝ) (lv av : Vec3) (mass : ℝ) (moi : Vec3) (q : Quat),
    0 < mass →
    (OnUpdate p t lv av mass moi q).force.x
      = (OnUpdate p t lv av mass moi q).lin_ubar.x * mass ∧
    (OnUpdate p t lv av mass moi q).force.y
      = (OnUpdate p t lv av mass moi q).lin_ubar.y * mass ∧
    (OnUpdate p t lv av mass moi q).force.z
      = (OnUpdate p t lv av mass moi q).lin_ubar.z * mass ∧
    (OnUpdate p t lv av mass moi q).torque.x
      = (OnUpdate p t lv av mass moi q).ang_ubar.x * moi.x ∧
    (OnUpdate p t lv av mass moi q).torque.y
      = (OnUpdate p t lv av mass moi q).ang_ubar.y * moi.y ∧
    (OnUpdate p t lv av mass moi q).torque.z
      = (OnUpdate p t lv av mass moi q).ang_ubar.z * moi.z :=
  fun _ _ _ _ _ _ _ _ => ⟨rfl, rfl, rfl, rfl, rfl, rfl⟩

/-- C5 witness: the force and torque identities instantiated at a tick from
the initial state with mass 2 and moment of inertia (1, 2, 3). -/
theorem claim_C5_witness :
    (OnUpdate initPlugin 1 (Vec3.mk 0 0 0) (Vec3.mk 0 0 0) 2 (Vec3.mk 1 2 3)
        (Quat.mk 1 0 0 0)).force.x
      = (OnUpdate initPlugin 1 (Vec3.mk 0 0 0) (Vec3.mk 0 0 0) 2 (Vec3.mk 1 2 3)
        (Quat.mk 1 0 0 0)).lin_ubar.x * 2 :=
  (claim_C5 initPlugin 1 (Vec3.mk 0 0 0) (Vec3.mk 0 0 0) 2 (Vec3.mk 1 2 3)
    (Quat.mk 1 0 0 0) (by norm_num)).1

/-- C6 counterexample: the tick overwrites the x and y components of the
orientation quaternion with zero, which does not leave the yaw component
unchanged: for the orientation quaternion (w, x, y, z) = (1, 1, 1, 0) the
yaw before the tick is arctan 2 while the yaw after the tick is 0. -/
theorem claim_C6_counterexample :
    ¬ ((OnUpdate initPlugin 1 (Vec3.mk 0 0 0) (Vec3.mk 0 0 0) 1 (Vec3.mk 1 1 1)
        (Quat.mk 1 1 1 0)).pose_rot.yaw = Quat.yaw (Quat.mk 1 1 1 0)) := by
  have harc : Real.arctan 2 ≠ 0 := by
    intro h0
    have h2 : Real.arctan 2 = Real.arctan 0 := by rw [h0, Real.arctan_zero]
    have h3 := Real.arctan_injective h2
    norm_num at h3
  show ¬ (Quat.yaw (Quat.mk 1 0 0 0) = Quat.yaw (Quat.mk 1 1 1 0))
  unfold Quat.yaw atan2
  norm_num [Real.arctan_zero]
  exact fun h => harc h.symm

/-- C6 amended: every tick overwrites the x and y components of the
orientation quaternion with zero while leaving the w and z components
unchanged; the resulting orientation has roll and pitch exactly zero, but
the yaw component is not preserved in general: it is preserved when the
quaternion x and y components were already zero (a pure yaw orientation). -/
theorem claim_C6 :
    ∀ (p : TelloPlugin) (t : ℝ) (lv av : Vec3) (m : ℝ) (moi : Vec3) (q : Quat),
    (OnUpdate p t lv av m moi q).pose_rot.roll = 0 ∧
    (OnUpdate p t lv av m moi q).pose_rot.pitch = 0 ∧
    (OnUpdate p t lv av m moi q).pose_rot.w = q.w ∧
    (OnUpdate p t lv av m moi q).pose_rot.z = q.z ∧
    (q.x = 0 → q.y = 0 → (OnUpdate p t lv av m moi q).pose_rot.yaw = q.yaw) := by
  intro p t lv av m moi q
  obtain ⟨w, x, y, z⟩ := q
  refine ⟨?_, ?_, rfl, rfl, ?_⟩
  · show Quat.roll (Quat.mk w 0 0 z) = 0
    unfold Quat.roll
    rw [show (2 * (0 * z + w * 0) : ℝ) = 0 by ring,
      show (w ^ 2 - 0 ^ 2 - 0 ^ 2 + z ^ 2 : ℝ) = w ^ 2 + z ^ 2 by ring]
    exact atan2_zero_nonneg _ (by positivity)
  · show Quat.pitch (Quat.mk w 0 0 z) = 0
    unfold Quat.pitch
    rw [show (2 * (w * 0 - 0 * z) : ℝ) = 0 by ring]
    exact Real.arcsin_zero
  · intro hx hy
    have hx0 : x = 0 := hx
    have hy0 : y = 0 := hy
    subst hx0
    subst hy0
    rfl

/-- C6 witness: a tick from a pure yaw orientation (quaternion x and y
already zero) leaves the yaw component unchanged. -/
theorem claim_C6_witness :
    (OnUpdate initPlugin 1 (Vec3.mk 0 0 0) (Vec3.mk 0 0 0) 1 (Vec3.mk 1 1 1)
      (Quat.mk 1 0 0 0)).pose_rot.yaw = Quat.yaw (Quat.mk 1 0 0 0) :=
  (claim_C6 initPlugin 1 (Vec3.mk 0 0 0) (Vec3.mk 0 0 0) 1 (Vec3.mk 1 1 1)
    (Quat.mk 1 0 0 0)).2.2.2.2 rfl rfl

/-- Controller state reached by constructing a channel with gains kp = 1,
ki = 1, kd = 0, setting its target to 1 and running one update with dt = 1
at measured value 0: the integral accumulator is then 1. -/
def accumulatedController : Controller :=
  (((Controller.mk false 1 1 0 0 0 0).set_target 1).calc 0 1 0).1

/-- C7 counterexample: an update with dt = 0 does not return exactly
kp * error for every gain configuration: from a reachable state with a
nonzero integral accumulator and ki = 1, the update with dt = 0 returns
kp * error + ki * accumulator = 2, not kp * error = 1. -/
theorem claim_C7_counterexample :
    (accumulatedController.calc 0 0 0).2
      ≠ accumulatedController.kp * accumulatedController.effectiveError 0 := by
  have hc : accumulatedController = Controller.mk false 1 1 0 1 1 1 := by
    unfold accumulatedController Controller.calc Controller.set_target Controller.effectiveError
    norm_num
  rw [hc]
  unfold Controller.calc Controller.effectiveError
  norm_num

/-- C7 amended: an update with dt = 0 adds nothing to the integral
accumulator and contributes a zero derivative term (no division by dt
happens), returning kp * error + ki * accumulator + bias; when the
accumulator is zero and the bias is zero (the source always passes bias 0,
and ki = 0 holds for all four channels of the plugin so their accumulator
contributes nothing), it returns exactly kp * error. -/
theorem claim_C7 : ∀ (c : Controller) (state bias : ℝ),
    (c.calc state 0 bias).2
      = c.kp * c.effectiveError state + c.ki * c.integral + bias ∧
    (c.calc state 0 bias).1.integral = c.integral ∧
    (c.integral = 0 → bias = 0 →
      (c.calc state 0 bias).2 = c.kp * c.effectiveError state) := by
  intro c state bias
  refine ⟨?_, ?_, ?_⟩
  · show c.kp * c.effectiveError state + c.ki * (c.integral + c.effectiveError state * 0) +
        c.kd * (if (0:ℝ) = 0 then 0 else (c.effectiveError state - c.prev_error) / 0) + bias
      = c.kp * c.effectiveError state + c.ki * c.integral + bias
    rw [if_pos rfl]
    ring
  · show c.integral + c.effectiveError state * 0 = c.integral
    ring
  · intro h0 hb
    show c.kp * c.effectiveError state + c.ki * (c.integral + c.effectiveError state * 0) +
        c.kd * (if (0:ℝ) = 0 then 0 else (c.effectiveError state - c.prev_error) / 0) + bias
      = c.kp * c.effectiveError state
    rw [if_pos rfl, h0, hb]
    ring

/-- C7 witness: a fresh controller with gains (2, 0, 0) and target 3 updated
with dt = 0 at measured value 1 returns exactly kp * error. -/
theorem claim_C7_witness :
    ((Controller.mk false 2 0 0 3 0 0).calc 1 0 0).2
      = (Controller.mk false 2 0 0 3 0 0).kp
        * (Controller.mk false 2 0 0 3 0 0).effectiveError 1 :=
  (claim_C7 (Controller.mk false 2 0 0 3 0 0) 1 0).2.2 rfl rfl

end

end TelloGazebo
